import Mathlib

/-!
# Verification of the `bl` PDF booklet imposer

A shallow embedding of `src/bl.py`, a program that rearranges the pages of a
PDF document into booklet imposition order: pairs of source pages are combined
side by side onto double-width output pages, and an optional centerfold
document is appended with alternating +90 and -90 degree rotation.

The PDF page-object model of `pypdf` is embedded as follows:

* a mediabox is a rectangle with rational coordinates (lower-left and
  upper-right corners), as in `pypdf.generic.RectangleObject`;
* a page is a mediabox, a list of placed content items (each an offset
  together with an opaque content identifier), and a `/Rotate` value;
* `PageObject.create_blank_page(width, height)` yields a page with mediabox
  `(0, 0, width, height)` and empty content;
* `output.merge_page(src)` appends `src`'s content to `output`'s content
  untranslated; `output.merge_translated_page(src, tx, ty)` appends it
  translated by `(tx, ty)`;
* `page.rotate(angle)` adds `angle` to the page's `/Rotate` value;
* a document is the list of its pages; reading a file yields that list, and
  the result of `create_booklet` is the page list handed to `PdfWriter`
  (a `none` result means an assertion fired before the output file was
  opened, so nothing was written).

Python `assert` failures are modelled by `Option`/`none` results.
-/

/-- A PDF mediabox: a rectangle given by its lower-left corner `(llx, lly)`
and upper-right corner `(urx, ury)`, with rational coordinates as in
`pypdf.generic.RectangleObject`. -/
structure Rect where
  llx : ℚ
  lly : ℚ
  urx : ℚ
  ury : ℚ
deriving DecidableEq, Repr

/-- Width of a mediabox, as `RectangleObject.width`. -/
def Rect.width (r : Rect) : ℚ := r.urx - r.llx

/-- Height of a mediabox, as `RectangleObject.height`. -/
def Rect.height (r : Rect) : ℚ := r.ury - r.lly

/-- One placed content item of a page: its offset `(x, y)` within the page
and an opaque identifier for the underlying drawing operations. -/
def ContentItem : Type := ℚ × ℚ × ℕ
deriving DecidableEq, Repr

/-- A `pypdf.PageObject`: a mediabox, the page's placed content, and its
`/Rotate` value. -/
structure Page where
  mediabox : Rect
  content : List ContentItem
  rotation : ℤ
deriving DecidableEq, Repr

instance : Inhabited Page :=
  ⟨{ mediabox := ⟨0, 0, 0, 0⟩, content := [], rotation := 0 }⟩

/-- Translating a page's content by `(tx, ty)`, as
`merge_translated_page` does before compositing. -/
def translateContent (tx ty : ℚ) (c : List ContentItem) : List ContentItem :=
  c.map fun t => (t.1 + tx, t.2.1 + ty, t.2.2)

/-- Model of `PageObject.create_blank_page(width, height)`: a blank page with mediabox
`(0, 0, width, height)` and no content. -/
def createBlankPage (width height : ℚ) : Page :=
  { mediabox := { llx := 0, lly := 0, urx := width, ury := height },
    content := [],
    rotation := 0 }

/-- The composite page built by the success path of `page_two_up`
(`src/bl.py` lines 46-50): a blank page of width `width * 2` and height
`height`, with `left` merged untranslated and `right` merged translated by
`(width, 0)`, where `width` and `height` are `left`'s dimensions. -/
def twoUpPage (left right : Page) : Page :=
  let width := left.mediabox.width
  let height := left.mediabox.height
  let blank := createBlankPage (width * 2) height
  { blank with
    content := blank.content ++ left.content ++ translateContent width 0 right.content }

/-- Model of `page_two_up` (`src/bl.py` lines 7-50): asserts that the two mediaboxes
are equal (line 43), then returns the composite page. A failed assertion is
`none`. -/
def page_two_up (left right : Page) : Option Page :=
  if left.mediabox = right.mediabox then
    some (twoUpPage left right)
  else
    none

/-- The main-body loop of `create_booklet` (`src/bl.py` lines 86-92):
`for i in range(0, total_pages//2, 2)`, where each pass composites
`pages[N-i-1]` (left) with `pages[i]` (right), locally increments `i`, and,
if `i < N//2` still holds, composites `pages[i]` (left) with `pages[N-i-1]`
(right). `N` is the page count and `H = N // 2`; a failing assertion inside
`page_two_up` aborts the whole run. -/
def mainBody (pages : List Page) (N H i : ℕ) : Option (List Page) :=
  if i < H then do
    let first ← page_two_up (pages.getD (N - i - 1) default) (pages.getD i default)
    if i + 1 < H then do
      let second ← page_two_up (pages.getD (i + 1) default) (pages.getD (N - (i + 1) - 1) default)
      let rest ← mainBody pages N H (i + 2)
      pure (first :: second :: rest)
    else do
      let rest ← mainBody pages N H (i + 2)
      pure (first :: rest)
  else
    pure []
termination_by H - i
decreasing_by all_goals omega

/-- The centerfold loop of `create_booklet` (`src/bl.py` lines 98-102):
each page is rotated by the current `angle`, the angle's sign is flipped,
and the rotated page is appended. The initial angle is `90`. -/
def rotateAlternating : List Page → ℤ → List Page
  | [], _ => []
  | p :: rest, angle =>
      { p with rotation := p.rotation + angle } :: rotateAlternating rest (-angle)

/-- Model of `create_booklet` (`src/bl.py` lines 53-106), abstracted over file I/O:
`pages` is the input document's page list and `centerfold` the centerfold
document's page list when a centerfold path is given. It asserts an even
page count (line 84), runs the main-body loop, appends the alternately
rotated centerfold pages, and returns the page list written to the output
file; `none` means an assertion fired and no output file was written
(the output path is only opened at line 105, after both loops). -/
def create_booklet (pages : List Page) (centerfold : Option (List Page)) :
    Option (List Page) := do
  let total := pages.length
  if total % 2 = 0 then do
    let body ← mainBody pages total (total / 2) 0
    let cfPart :=
      match centerfold with
      | some cf => rotateAlternating cf 90
      | none => []
    pure (body ++ cfPart)
  else
    none

/-- The index pairs `(left, right)` that claim C1 says the main-body loop
composites, transcribed from the claim: iterate `i = 0, 2, 4, ...` while
`i < H`; each step yields `(N - i - 1, i)` and then, if `i + 1 < H`, also
`(i + 1, N - (i + 1) - 1)`. -/
def claimPairs (N H i : ℕ) : List (ℕ × ℕ) :=
  if i < H then
    (N - i - 1, i) ::
      ((if i + 1 < H then [(i + 1, N - (i + 1) - 1)] else []) ++ claimPairs N H (i + 2))
  else
    []
termination_by H - i
decreasing_by all_goals omega

/-- On equal mediaboxes the assertion in `page_two_up` passes and the
composite page is returned. -/
lemma page_two_up_eq (l r : Page) (h : l.mediabox = r.mediabox) :
    page_two_up l r = some (twoUpPage l r) := by
  simp [page_two_up, h]

/-- On unequal mediaboxes the assertion in `page_two_up` fires. -/
lemma page_two_up_none (l r : Page) (h : l.mediabox ≠ r.mediabox) :
    page_two_up l r = none := by
  simp [page_two_up, h]

/-- The composite page is twice as wide as the left input page. -/
lemma twoUpPage_width (l r : Page) :
    (twoUpPage l r).mediabox.width = 2 * l.mediabox.width := by
  simp [twoUpPage, createBlankPage, Rect.width]
  ring

/-- The composite page is as tall as the left input page. -/
lemma twoUpPage_height (l r : Page) :
    (twoUpPage l r).mediabox.height = l.mediabox.height := by
  simp [twoUpPage, createBlankPage, Rect.height]

/-- In a document of uniform mediabox `r`, every in-range index reads a page
of mediabox `r`. -/
lemma getD_mediabox (pages : List Page) (r : Rect)
    (huni : ∀ p ∈ pages, p.mediabox = r) (i : ℕ) (hi : i < pages.length) :
    (pages.getD i default).mediabox = r := by
  rw [List.getD_eq_getElem pages default hi]
  exact huni _ (List.getElem_mem hi)

/-- For a uniform-mediabox document, the main-body loop never hits the
`page_two_up` assertion and produces exactly the composites of the index
pairs described by claim C1, in order. -/
lemma mainBody_spec_aux (pages : List Page) (r : Rect)
    (huni : ∀ p ∈ pages, p.mediabox = r) (H : ℕ) (hH : H ≤ pages.length) :
    ∀ k i, H - i ≤ k →
      mainBody pages pages.length H i =
        some ((claimPairs pages.length H i).map fun pr =>
          twoUpPage (pages.getD pr.1 default) (pages.getD pr.2 default)) := by
  intro k
  induction k with
  | zero =>
    intro i hik
    have hi : ¬ i < H := by omega
    rw [mainBody, claimPairs]
    simp [hi]
  | succ k ih =>
    intro i hik
    by_cases hi : i < H
    · have h1 : (pages.getD (pages.length - i - 1) default).mediabox = r :=
        getD_mediabox pages r huni _ (by omega)
      have h2 : (pages.getD i default).mediabox = r :=
        getD_mediabox pages r huni _ (by omega)
      rw [mainBody, claimPairs]
      by_cases hi1 : i + 1 < H
      · have h3 : (pages.getD (i + 1) default).mediabox = r :=
          getD_mediabox pages r huni _ (by omega)
        have h4 : (pages.getD (pages.length - (i + 1) - 1) default).mediabox = r :=
          getD_mediabox pages r huni _ (by omega)
        simp only [if_pos hi, if_pos hi1, page_two_up_eq _ _ (h1.trans h2.symm),
          page_two_up_eq _ _ (h3.trans h4.symm), ih (i + 2) (by omega),
          Option.bind_eq_bind, Option.some_bind, List.map_cons, List.map_append,
          List.map_nil, List.cons_append, List.nil_append, pure]
      · simp only [if_pos hi, if_neg hi1, page_two_up_eq _ _ (h1.trans h2.symm),
          ih (i + 2) (by omega), Option.bind_eq_bind, Option.some_bind,
          List.map_cons, List.map_append, List.map_nil, List.cons_append,
          List.nil_append, pure]
    · rw [mainBody, claimPairs]
      simp [hi]

/-- The loop of claim C1 emits exactly `H - i` index pairs from position
`i` on, hence `H` pairs in total. -/
lemma claimPairs_length (N H : ℕ) :
    ∀ k i, H - i ≤ k → (claimPairs N H i).length = H - i := by
  intro k
  induction k with
  | zero =>
    intro i hik
    have hi : ¬ i < H := by omega
    rw [claimPairs]
    simp [hi]
    omega
  | succ k ih =>
    intro i hik
    by_cases hi : i < H
    · rw [claimPairs]
      by_cases hi1 : i + 1 < H
      · simp [hi, hi1, ih (i + 2) (by omega)]
        omega
      · simp [hi, hi1, ih (i + 2) (by omega)]
        omega
    · rw [claimPairs]
      simp [hi]
      omega

/-- Every index pair emitted by the loop of claim C1 is in range when
`H ≤ N`. -/
lemma claimPairs_mem_lt (N H : ℕ) (hH : H ≤ N) :
    ∀ k i pr, H - i ≤ k → pr ∈ claimPairs N H i → pr.1 < N ∧ pr.2 < N := by
  intro k
  induction k with
  | zero =>
    intro i pr hik hmem
    have hi : ¬ i < H := by omega
    rw [claimPairs] at hmem
    simp [hi] at hmem
  | succ k ih =>
    intro i pr hik hmem
    by_cases hi : i < H
    · rw [claimPairs] at hmem
      by_cases hi1 : i + 1 < H
      · simp [hi, hi1] at hmem
        rcases hmem with h | h | h
        · subst h; constructor <;> omega
        · subst h; constructor <;> omega
        · exact ih (i + 2) pr (by omega) h
      · simp [hi, hi1] at hmem
        rcases hmem with h | h
        · subst h; constructor <;> omega
        · exact ih (i + 2) pr (by omega) h
    · rw [claimPairs] at hmem
      simp [hi] at hmem

/-- Rotating alternately keeps the page count. -/
lemma rotateAlternating_length (cf : List Page) :
    ∀ a, (rotateAlternating cf a).length = cf.length := by
  induction cf with
  | nil => intro a; rfl
  | cons p rest ih => intro a; simp [rotateAlternating, ih]

/-- Index characterization of the centerfold loop: page `j` keeps its
mediabox and content and gets `a` added to its rotation when `j` is even,
`-a` when `j` is odd. -/
lemma rotateAlternating_getD (cf : List Page) :
    ∀ a j, j < cf.length →
      (rotateAlternating cf a).getD j default =
        { cf.getD j default with
          rotation := (cf.getD j default).rotation + (if j % 2 = 0 then a else -a) } := by
  induction cf with
  | nil => intro a j hj; simp at hj
  | cons p rest ih =>
    intro a j hj
    cases j with
    | zero => simp [rotateAlternating]
    | succ j =>
      have hj' : j < rest.length := by simpa using hj
      have hrw : (rotateAlternating (p :: rest) a).getD (j + 1) default =
          (rotateAlternating rest (-a)).getD j default := by
        simp [rotateAlternating]
      have hcons : ((p :: rest).getD (j + 1) default) = rest.getD j default := by
        simp
      rw [hrw, ih (-a) j hj', hcons]
      rcases Nat.even_or_odd j with he | ho
      · have hje : j % 2 = 0 := Nat.even_iff.mp he
        have hj1 : ¬ ((j + 1) % 2 = 0) := by omega
        simp [hje, hj1]
      · have hjo : ¬ (j % 2 = 0) := by
          have := Nat.odd_iff.mp ho
          omega
        have hj1 : (j + 1) % 2 = 0 := by
          have := Nat.odd_iff.mp ho
          omega
        simp [hjo, hj1]

/-- Full run of `create_booklet` on a uniform-mediabox document with an even
page count: the main-body composites in claim C1's pair order, followed by
the alternately rotated centerfold pages. -/
lemma create_booklet_eq (pages : List Page) (cf : Option (List Page)) (r : Rect)
    (huni : ∀ p ∈ pages, p.mediabox = r) (heven : pages.length % 2 = 0) :
    create_booklet pages cf =
      some (((claimPairs pages.length (pages.length / 2) 0).map fun pr =>
          twoUpPage (pages.getD pr.1 default) (pages.getD pr.2 default)) ++
        (match cf with
         | some c => rotateAlternating c 90
         | none => [])) := by
  have hH : pages.length / 2 ≤ pages.length := Nat.div_le_self _ _
  have hmb := mainBody_spec_aux pages r huni (pages.length / 2) hH
    (pages.length / 2) 0 (by omega)
  unfold create_booklet
  simp [heven, hmb]

/-- A sample mediabox of width 2 and height 3, used to instantiate
hypotheses at concrete inputs. -/
def boxA : Rect := ⟨0, 0, 2, 3⟩

/-- Sample input pages sharing mediabox `boxA`, distinguished by their
content identifier. -/
def samplePage (k : ℕ) : Page :=
  { mediabox := boxA, content := [(0, 0, k)], rotation := 0 }

/-- A four-page sample document. -/
def sampleDoc : List Page := [samplePage 0, samplePage 1, samplePage 2, samplePage 3]

/-- C1: for every input document with even page count `N` and `H = N/2`,
`create_booklet` appends main-body sheets by iterating `i = 0, 2, 4, ...`
while `i < H`, each step first appending the composite with page `N-i-1` on
the left and page `i` on the right, then, if `i+1 < H`, appending the
composite with page `i+1` on the left and page `N-(i+1)-1` on the right
(`claimPairs` transcribes exactly this iteration; stated for documents of
uniform mediabox so that every composite's assertion passes). -/
theorem C1_main_loop_pair_order (pages : List Page) (r : Rect)
    (huni : ∀ p ∈ pages, p.mediabox = r) (heven : pages.length % 2 = 0) :
    create_booklet pages none =
      some ((claimPairs pages.length (pages.length / 2) 0).map fun pr =>
        twoUpPage (pages.getD pr.1 default) (pages.getD pr.2 default)) := by
  simpa using create_booklet_eq pages none r huni heven

/-- Witness for C1 at the four-page sample document. -/
theorem C1_main_loop_pair_order_witness :
    ((∀ p ∈ sampleDoc, p.mediabox = boxA) ∧ sampleDoc.length % 2 = 0) ∧
    create_booklet sampleDoc none =
      some ((claimPairs sampleDoc.length (sampleDoc.length / 2) 0).map fun pr =>
        twoUpPage (sampleDoc.getD pr.1 default) (sampleDoc.getD pr.2 default)) :=
  ⟨⟨by decide, by decide⟩,
    C1_main_loop_pair_order sampleDoc boxA (by decide) (by decide)⟩

/-- C2 counterexample: on a concrete 4-page document the output is not
`[two_up(P3,P0), two_up(P2,P1)]` — the second sheet does not carry `P2` on
the left and `P1` on the right. -/
theorem C2_second_sheet_counterexample :
    create_booklet sampleDoc none ≠
      some [twoUpPage (samplePage 3) (samplePage 0),
            twoUpPage (samplePage 2) (samplePage 1)] := by
  simp [create_booklet, mainBody, page_two_up, twoUpPage, sampleDoc, samplePage,
    boxA, translateContent, createBlankPage, Rect.width, Rect.height]
  decide

/-- C2 amended: for a 4-page input document `[P0, P1, P2, P3]` of uniform
mediabox, `create_booklet` produces exactly the output sheet sequence
`[two_up(left=P3, right=P0), two_up(left=P1, right=P2)]` — the second sheet
has `P1` on the left and `P2` on the right. -/
theorem C2_second_sheet_amended (p0 p1 p2 p3 : Page) (r : Rect)
    (huni : ∀ p ∈ [p0, p1, p2, p3], p.mediabox = r) :
    create_booklet [p0, p1, p2, p3] none =
      some [twoUpPage p3 p0, twoUpPage p1 p2] := by
  have h := create_booklet_eq [p0, p1, p2, p3] none r huni (by simp)
  norm_num at h
  rw [h, claimPairs]
  norm_num
  rw [claimPairs]
  norm_num

/-- Witness for the amended C2 at the four-page sample document. -/
theorem C2_second_sheet_amended_witness :
    (∀ p ∈ [samplePage 0, samplePage 1, samplePage 2, samplePage 3],
        p.mediabox = boxA) ∧
    create_booklet [samplePage 0, samplePage 1, samplePage 2, samplePage 3] none =
      some [twoUpPage (samplePage 3) (samplePage 0),
            twoUpPage (samplePage 1) (samplePage 2)] :=
  ⟨by decide,
    C2_second_sheet_amended (samplePage 0) (samplePage 1) (samplePage 2) (samplePage 3)
      boxA (by decide)⟩

/-- C3 amended: for every input document with even page count whose pages all
share one mediabox — full mediabox equality, not merely one mediabox size;
sharing only width and height is not enough, see the counterexample —
`create_booklet` with no centerfold produces an output document with exactly
`N/2` pages, each of mediabox width twice the input page width and height
equal to the input page height. -/
theorem C3_output_count_and_size (pages : List Page) (r : Rect)
    (huni : ∀ p ∈ pages, p.mediabox = r) (heven : pages.length % 2 = 0) :
    ∃ out, create_booklet pages none = some out ∧
      out.length = pages.length / 2 ∧
      ∀ p ∈ out, p.mediabox.width = 2 * r.width ∧ p.mediabox.height = r.height := by
  have hH : pages.length / 2 ≤ pages.length := Nat.div_le_self _ _
  refine ⟨_, by simpa using create_booklet_eq pages none r huni heven, ?_, ?_⟩
  · rw [List.length_map]
    have := claimPairs_length pages.length (pages.length / 2) (pages.length / 2) 0 (by omega)
    omega
  · intro p hp
    rcases List.mem_map.mp hp with ⟨pr, hpr, hpeq⟩
    have hlt := claimPairs_mem_lt pages.length (pages.length / 2) hH
      (pages.length / 2) 0 pr (by omega) hpr
    have hmbl : (pages.getD pr.1 default).mediabox = r :=
      getD_mediabox pages r huni pr.1 hlt.1
    subst hpeq
    have hmbl2 : (pages[pr.1]?.getD default).mediabox = r := by simpa using hmbl
    exact ⟨by rw [twoUpPage_width, hmbl2], by rw [twoUpPage_height, hmbl2]⟩

/-- Witness for the amended C3 at the four-page sample document. -/
theorem C3_output_count_and_size_witness :
    ((∀ p ∈ sampleDoc, p.mediabox = boxA) ∧ sampleDoc.length % 2 = 0) ∧
    ∃ out, create_booklet sampleDoc none = some out ∧
      out.length = sampleDoc.length / 2 ∧
      ∀ p ∈ out, p.mediabox.width = 2 * boxA.width ∧ p.mediabox.height = boxA.height :=
  ⟨⟨by decide, by decide⟩,
    C3_output_count_and_size sampleDoc boxA (by decide) (by decide)⟩

/-- A page whose mediabox has the same width (2) and height (3) as `boxA`
but a different lower-left corner. -/
def pageShifted : Page :=
  { mediabox := ⟨1, 0, 3, 3⟩, content := [(0, 0, 9)], rotation := 0 }

/-- C3 counterexample: a 2-page document whose pages share one mediabox size
(width 2, height 3) but not one mediabox — the lower-left corners differ —
makes `create_booklet` hit the line-43 assertion and produce no output at
all, instead of the `N/2`-page document the claim promises. -/
theorem C3_shared_size_counterexample :
    ([samplePage 0, pageShifted] : List Page).length % 2 = 0 ∧
    (∀ p ∈ ([samplePage 0, pageShifted] : List Page),
      p.mediabox.width = boxA.width ∧ p.mediabox.height = boxA.height) ∧
    create_booklet [samplePage 0, pageShifted] none = none := by
  refine ⟨by decide, ?_, ?_⟩
  · norm_num [samplePage, pageShifted, boxA, Rect.width, Rect.height]
  · simp [create_booklet, mainBody, page_two_up, samplePage, pageShifted, boxA]

/-- C4 counterexample: two pages of identical width and height whose
mediaboxes differ in their lower-left corner make `page_two_up` fail its
assertion instead of returning a composite page. -/
theorem C4_dimensions_only_counterexample :
    (samplePage 0).mediabox.width = pageShifted.mediabox.width ∧
    (samplePage 0).mediabox.height = pageShifted.mediabox.height ∧
    page_two_up (samplePage 0) pageShifted = none := by
  refine ⟨?_, ?_, ?_⟩
  · norm_num [samplePage, pageShifted, boxA, Rect.width]
  · norm_num [samplePage, pageShifted, boxA, Rect.height]
  · simp [page_two_up, samplePage, pageShifted, boxA]

/-- C4 amended: for every two pages with identical mediaboxes (not merely
identical dimensions), `page_two_up` returns a new page of width
`2 × left.width` and height `left.height`, with `left`'s content composited
at origin `(0, 0)` and `right`'s content translated by `(+width, 0)`. -/
theorem C4_composite_shape_amended (l r : Page) (h : l.mediabox = r.mediabox) :
    ∃ p, page_two_up l r = some p ∧
      p.mediabox.width = 2 * l.mediabox.width ∧
      p.mediabox.height = l.mediabox.height ∧
      p.content = l.content ++ translateContent l.mediabox.width 0 r.content ∧
      p.rotation = 0 := by
  refine ⟨twoUpPage l r, page_two_up_eq l r h, twoUpPage_width l r,
    twoUpPage_height l r, ?_, rfl⟩
  simp [twoUpPage, createBlankPage]

/-- Witness for the amended C4 at two equal-mediabox sample pages. -/
theorem C4_composite_shape_amended_witness :
    (samplePage 0).mediabox = (samplePage 1).mediabox ∧
    ∃ p, page_two_up (samplePage 0) (samplePage 1) = some p ∧
      p.mediabox.width = 2 * (samplePage 0).mediabox.width ∧
      p.mediabox.height = (samplePage 0).mediabox.height ∧
      p.content = (samplePage 0).content ++
        translateContent (samplePage 0).mediabox.width 0 (samplePage 1).content ∧
      p.rotation = 0 :=
  ⟨by decide, C4_composite_shape_amended (samplePage 0) (samplePage 1) (by decide)⟩

/-- C5: for every two pages whose mediaboxes differ, `page_two_up` fails its
assertion (modelled as `none`) and produces no output page. -/
theorem C5_mismatched_mediabox_rejected (l r : Page)
    (h : l.mediabox ≠ r.mediabox) :
    page_two_up l r = none :=
  page_two_up_none l r h

/-- Witness for C5 at a sample page and a page of a different mediabox. -/
theorem C5_mismatched_mediabox_rejected_witness :
    (samplePage 2).mediabox ≠ pageShifted.mediabox ∧
    page_two_up (samplePage 2) pageShifted = none :=
  ⟨by decide, C5_mismatched_mediabox_rejected (samplePage 2) pageShifted (by decide)⟩

/-- C6: for every input document with an odd page count, `create_booklet`
fails its parity assertion (`src/bl.py` line 84) and returns `none`: no page
list is ever handed to the writer, the output path (only opened at line 105,
after the assertion) is not written. -/
theorem C6_odd_page_count_rejected (pages : List Page)
    (cf : Option (List Page)) (hodd : pages.length % 2 = 1) :
    create_booklet pages cf = none := by
  have h : ¬ (pages.length % 2 = 0) := by omega
  unfold create_booklet
  simp [h]

/-- Witness for C6 at a one-page document. -/
theorem C6_odd_page_count_rejected_witness :
    [samplePage 0].length % 2 = 1 ∧
    create_booklet [samplePage 0] none = none :=
  ⟨by decide, C6_odd_page_count_rejected [samplePage 0] none (by decide)⟩

/-- C9: the assertion of `page_two_up` is full mediabox equality, not just
width and height: two pages with identical width and height but different
lower-left corners are rejected. -/
theorem C9_full_mediabox_equality (l r : Page)
    (hw : l.mediabox.width = r.mediabox.width)
    (hh : l.mediabox.height = r.mediabox.height)
    (hcorner : l.mediabox.llx ≠ r.mediabox.llx ∨ l.mediabox.lly ≠ r.mediabox.lly) :
    page_two_up l r = none := by
  apply page_two_up_none
  intro heq
  rcases hcorner with hc | hc
  · exact hc (by rw [heq])
  · exact hc (by rw [heq])

/-- Witness for C9 at two same-size pages with shifted corners. -/
theorem C9_full_mediabox_equality_witness :
    ((samplePage 1).mediabox.width = pageShifted.mediabox.width ∧
     (samplePage 1).mediabox.height = pageShifted.mediabox.height ∧
     ((samplePage 1).mediabox.llx ≠ pageShifted.mediabox.llx ∨
      (samplePage 1).mediabox.lly ≠ pageShifted.mediabox.lly)) ∧
    page_two_up (samplePage 1) pageShifted = none :=
  ⟨⟨by norm_num [samplePage, pageShifted, boxA, Rect.width],
    by norm_num [samplePage, pageShifted, boxA, Rect.height], by decide⟩,
    C9_full_mediabox_equality (samplePage 1) pageShifted
      (by norm_num [samplePage, pageShifted, boxA, Rect.width])
      (by norm_num [samplePage, pageShifted, boxA, Rect.height])
      (by decide)⟩

/-- C10: for an input document with zero pages, `create_booklet` succeeds
(the parity assertion passes for `N = 0`), the main-body loop appends no
sheets, and the written output holds zero pages plus the centerfold pages
when a centerfold is given. -/
theorem C10_empty_document (cf : List Page) :
    create_booklet [] none = some [] ∧
    create_booklet [] (some cf) = some (rotateAlternating cf 90) ∧
    (rotateAlternating cf 90).length = cf.length := by
  refine ⟨?_, ?_, rotateAlternating_length cf 90⟩ <;>
    simp [create_booklet, mainBody]

/-- C7: when a centerfold is provided, `create_booklet` appends every
centerfold page, in source order and without compositing, after all
main-body sheets; rotations alternate in sign starting at +90 degrees
(page 0 gets +90, page 1 gets -90, page 2 gets +90, ...) and each page keeps
its original mediabox dimensions and content. -/
theorem C7_centerfold_after_body (pages cf : List Page) (r : Rect)
    (huni : ∀ p ∈ pages, p.mediabox = r) (heven : pages.length % 2 = 0) :
    ∃ body, create_booklet pages none = some body ∧
      create_booklet pages (some cf) = some (body ++ rotateAlternating cf 90) ∧
      (rotateAlternating cf 90).length = cf.length ∧
      ∀ j, j < cf.length →
        ((rotateAlternating cf 90).getD j default).mediabox =
          (cf.getD j default).mediabox ∧
        ((rotateAlternating cf 90).getD j default).content =
          (cf.getD j default).content ∧
        ((rotateAlternating cf 90).getD j default).rotation =
          (cf.getD j default).rotation + (if j % 2 = 0 then 90 else -90) := by
  refine ⟨(claimPairs pages.length (pages.length / 2) 0).map fun pr =>
      twoUpPage (pages.getD pr.1 default) (pages.getD pr.2 default),
    by simpa using create_booklet_eq pages none r huni heven,
    by simpa using create_booklet_eq pages (some cf) r huni heven,
    rotateAlternating_length cf 90, ?_⟩
  intro j hj
  rw [rotateAlternating_getD cf 90 j hj]
  exact ⟨rfl, rfl, rfl⟩

/-- Witness for C7 at the four-page sample document with a two-page
centerfold. -/
theorem C7_centerfold_after_body_witness :
    ((∀ p ∈ sampleDoc, p.mediabox = boxA) ∧ sampleDoc.length % 2 = 0) ∧
    ∃ body, create_booklet sampleDoc none = some body ∧
      create_booklet sampleDoc (some [samplePage 4, samplePage 5]) =
        some (body ++ rotateAlternating [samplePage 4, samplePage 5] 90) ∧
      (rotateAlternating [samplePage 4, samplePage 5] 90).length =
        ([samplePage 4, samplePage 5] : List Page).length ∧
      ∀ j, j < ([samplePage 4, samplePage 5] : List Page).length →
        ((rotateAlternating [samplePage 4, samplePage 5] 90).getD j default).mediabox =
          (([samplePage 4, samplePage 5] : List Page).getD j default).mediabox ∧
        ((rotateAlternating [samplePage 4, samplePage 5] 90).getD j default).content =
          (([samplePage 4, samplePage 5] : List Page).getD j default).content ∧
        ((rotateAlternating [samplePage 4, samplePage 5] 90).getD j default).rotation =
          (([samplePage 4, samplePage 5] : List Page).getD j default).rotation +
            (if j % 2 = 0 then 90 else -90) :=
  ⟨⟨by decide, by decide⟩,
    C7_centerfold_after_body sampleDoc [samplePage 4, samplePage 5] boxA
      (by decide) (by decide)⟩

/-- Setting the index of a freshly appended last element replaces just
that element. -/
lemma set_append_singleton {α : Type _} (l : List α) (x v : α) :
    (l ++ [x]).set l.length v = l ++ [v] := by
  induction l with
  | nil => rfl
  | cons a t ih => simp [ih]

/-- Model of `PageObject.create_blank_page` as a heap operation: allocates a fresh
blank page at the end of the heap and returns its index. -/
def heapCreateBlankPage (h : List Page) (width height : ℚ) : List Page × ℕ :=
  (h ++ [createBlankPage width height], h.length)

/-- Model of `out.merge_page(src)` as a heap operation: appends the source content to
the page at index `out`, touching no other heap cell. -/
def heapMergePage (h : List Page) (out src : ℕ) : List Page :=
  h.set out { h.getD out default with
    content := (h.getD out default).content ++ (h.getD src default).content }

/-- Model of `out.merge_translated_page(src, tx, ty)` as a heap operation. -/
def heapMergeTranslatedPage (h : List Page) (out src : ℕ) (tx ty : ℚ) : List Page :=
  h.set out { h.getD out default with
    content := (h.getD out default).content ++
      translateContent tx ty (h.getD src default).content }

/-- The imperative body of `page_two_up` (`src/bl.py` lines 39-50) threaded
through an explicit heap of page objects: `left` and `right` are heap
indices; on success the new heap and the index of the freshly created
composite page are returned. -/
def page_two_up_heap (h : List Page) (left right : ℕ) : Option (List Page × ℕ) :=
  let width := (h.getD left default).mediabox.width
  let height := (h.getD left default).mediabox.height
  if (h.getD left default).mediabox = (h.getD right default).mediabox then
    let alloc := heapCreateBlankPage h (width * 2) height
    let h2 := heapMergePage alloc.1 alloc.2 left
    let h3 := heapMergeTranslatedPage h2 alloc.2 right width 0
    some (h3, alloc.2)
  else
    none

/-- Successful run of the heap-threaded `page_two_up`: the result heap is the
old heap plus one appended composite page. -/
lemma heap_two_up_eq (h : List Page) (left right : ℕ)
    (hl : left < h.length) (hr : right < h.length)
    (heq : (h.getD left default).mediabox = (h.getD right default).mediabox) :
    page_two_up_heap h left right =
      some (h ++ [twoUpPage (h.getD left default) (h.getD right default)],
        h.length) := by
  have hlast : ∀ p : Page, (h ++ [p]).getD h.length default = p := by
    intro p
    simp [List.getD_append_right]
  have hleft : ∀ p : Page, (h ++ [p]).getD left default = h.getD left default :=
    fun p => List.getD_append h [p] default left hl
  have hright : ∀ p : Page, (h ++ [p]).getD right default = h.getD right default :=
    fun p => List.getD_append h [p] default right hr
  unfold page_two_up_heap heapCreateBlankPage heapMergePage heapMergeTranslatedPage
  simp only [if_pos heq, hlast, hleft, hright, set_append_singleton]
  simp [twoUpPage, createBlankPage]

/-- C8: `page_two_up` does not mutate its inputs: on success every
pre-existing heap cell — in particular the left and right pages, their
mediaboxes and contents — is unchanged, and the only new state is the one
freshly allocated composite page at the end of the heap. -/
theorem C8_no_input_mutation (h : List Page) (left right : ℕ)
    (hl : left < h.length) (hr : right < h.length)
    (h' : List Page) (out : ℕ)
    (hsucc : page_two_up_heap h left right = some (h', out)) :
    (∀ j, j < h.length → h'.getD j default = h.getD j default) ∧
    h'.length = h.length + 1 ∧
    out = h.length ∧
    h'.getD out default = twoUpPage (h.getD left default) (h.getD right default) := by
  have heq : (h.getD left default).mediabox = (h.getD right default).mediabox := by
    by_contra hne
    rw [page_two_up_heap] at hsucc
    simp at hsucc
    exact hne (by simpa using hsucc.1)
  rw [heap_two_up_eq h left right hl hr heq] at hsucc
  have hpair : h ++ [twoUpPage (h.getD left default) (h.getD right default)] = h' ∧
      h.length = out := by
    simpa using hsucc
  obtain ⟨hh', hout⟩ := hpair
  subst hh'
  subst hout
  refine ⟨?_, by simp, rfl, ?_⟩
  · intro j hj
    exact List.getD_append h _ default j hj
  · simp [List.getD_append_right]

/-- A two-page heap for instantiating the frame property. -/
def sampleHeap : List Page := [samplePage 0, samplePage 1]

/-- The heap after the sample composite call: the old cells plus the
composite page. -/
def sampleHeapOut : List Page :=
  sampleHeap ++ [twoUpPage (sampleHeap.getD 0 default) (sampleHeap.getD 1 default)]

/-- Witness for C8 at a two-page heap, compositing its two pages. -/
theorem C8_no_input_mutation_witness :
    ((0 : ℕ) < sampleHeap.length ∧ (1 : ℕ) < sampleHeap.length) ∧
    ((∀ j, j < sampleHeap.length →
        sampleHeapOut.getD j default = sampleHeap.getD j default) ∧
      sampleHeapOut.length = sampleHeap.length + 1 ∧
      sampleHeap.length = sampleHeap.length ∧
      sampleHeapOut.getD sampleHeap.length default =
        twoUpPage (sampleHeap.getD 0 default) (sampleHeap.getD 1 default)) :=
  ⟨⟨by decide, by decide⟩,
    C8_no_input_mutation sampleHeap 0 1 (by decide) (by decide)
      sampleHeapOut sampleHeap.length
      (heap_two_up_eq sampleHeap 0 1 (by decide) (by decide) (by decide))⟩
